import Mathlib

/-!
Shallow embedding of `tyy130/linux-battery-tray` (src/battery_indicator.py,
src/config.py) and proofs about its battery-state logic.

Modelling conventions:
* Python floats are modelled as exact rationals (`ℚ`); the claims under
  study are about the arithmetic structure (means, thresholds), not
  rounding.
* Python strings are modelled as `String`; character-level helpers
  (`pyLower`, `pyStrip`, …) mirror the `str` methods the code uses.
* The outcome of `float(parts[0])` in `_parse_upower_time_to_minutes` is
  passed in as an `Option ℚ` argument (`none` models `ValueError`), so the
  theorems quantify over every possible behaviour of the builtin.
* Stateful methods become explicit state-passing functions; a sequence of
  polls is a fold over a trace.
-/

namespace BatteryTray

/-! ## Configuration constants (src/config.py) -/

def UPDATE_INTERVAL : Int := 30

def LOW_BATTERY_THRESHOLD : Int := 15

def CRITICAL_BATTERY_THRESHOLD : Int := 5

def BATTERY_FULL_THRESHOLD : Int := 80

def BATTERY_GOOD_THRESHOLD : Int := 50

def BATTERY_LOW_THRESHOLD : Int := 20

def BATTERY_CAUTION_THRESHOLD : Int := 10

def TIME_SMOOTHING_WINDOW : Nat := 5

def HEALTH_WARNING_THRESHOLD : Int := 40

def LOW_BATTERY_UPDATE_INTERVAL : Int := 10

/-! ## Python string helpers -/

/-- Model of Python `str.lower()` restricted to the ASCII range the
program compares against. -/
def pyLower (s : String) : String :=
  ⟨s.data.map Char.toLower⟩

/-- Model of Python `str.strip()`: drop whitespace from both ends. -/
def pyStripChars (l : List Char) : List Char :=
  ((l.dropWhile Char.isWhitespace).reverse.dropWhile Char.isWhitespace).reverse

def pyStrip (s : String) : String :=
  ⟨pyStripChars s.data⟩

/-- Model of Python `str.split()` with no argument: split on runs of
whitespace, discarding empty fields. -/
def pySplitWs (s : String) : List String :=
  (s.data.splitOnP Char.isWhitespace).filter (fun w => ¬ w.isEmpty)
    |>.map fun w => ⟨w⟩

/-- Prefix test on character lists (avoids any library name clash). -/
def charsPre : List Char → List Char → Bool
  | [], _ => true
  | _ :: _, [] => false
  | a :: as, b :: bs => a == b && charsPre as bs

/-- Substring containment on character lists; models Python `x in s`. -/
def charsSub (needle : List Char) : List Char → Bool
  | [] => needle.isEmpty
  | c :: rest => charsPre needle (c :: rest) || charsSub needle rest

/-- Model of Python `needle in hay` for strings. -/
def pyContains (hay needle : String) : Bool :=
  charsSub needle.data hay.data

/-! ## Time smoothing (src/battery_indicator.py, lines 581-655) -/

/-- Model of `_parse_upower_time_to_minutes` (lines 581-595).
`parts` is `time_str.strip().split()`; `val?` is the outcome of
`float(parts[0])` (`none` = `ValueError`). Returns minutes. -/
def parse_upower_time_to_minutes (parts : List String) (val? : Option ℚ) : ℚ :=
  if parts.length < 2 then 0
  else
    match val? with
    | none => 0
    | some val =>
      let unit := pyLower (parts.getD 1 "")
      if pyContains unit "hour" then val * 60
      else if pyContains unit "minute" then val
      else 0

/-- State of the smoothing machinery: `time_history` is the
`collections.deque(maxlen=5)` from line 188 (oldest first), and
`last_time_type` the string stored at line 189/636. -/
structure SmoothState where
  time_history : List ℚ
  last_time_type : Option String
  deriving Repr, DecidableEq

/-- Fresh state from `BatteryIndicator.__init__` (lines 188-189). -/
def initSmooth : SmoothState := ⟨[], none⟩

/-- Append with eviction: models `deque(maxlen=cap).append`, dropping the
oldest element when the deque is full. -/
def dequeAppend (cap : Nat) (h : List ℚ) (m : ℚ) : List ℚ :=
  (h ++ [m]).drop ((h ++ [m]).length - cap)

/-- The last `n` elements of a list, in order. -/
def lastN (n : Nat) (l : List ℚ) : List ℚ :=
  l.drop (l.length - n)

/-- Arithmetic mean, as computed at line 644. -/
def listMean (l : List ℚ) : ℚ :=
  l.sum / l.length

/-- A single poll pass through the smoothing block of `get_time_remaining`
(lines 632-655), given what was scraped from the upower output: `none`
models `current_time_type`/`raw_time_str` being absent (falsy), and
`some (tt, minutes)` carries the time type found and the already parsed
minutes for `raw_time_str`. Returns the new state and the smoothed
average in minutes when one is reported (`none` = fall through to the
status fallback, lines 657-660). -/
def timeSmoothStep (s : SmoothState) (sample : Option (String × ℚ)) :
    SmoothState × Option ℚ :=
  match sample with
  | none => (s, none)
  | some (tt, minutes) =>
    -- lines 634-636: reset history when the time type changed
    let s1 : SmoothState :=
      if some tt ≠ s.last_time_type then ⟨[], some tt⟩
      else s
    if 0 < minutes then
      let h := dequeAppend 5 s1.time_history minutes
      (⟨h, s1.last_time_type⟩, some (listMean h))
    else
      (s1, none)

/-- Fold a whole sequence of polls through `timeSmoothStep`. -/
def smoothRun (s : SmoothState) (samples : List (Option (String × ℚ))) :
    SmoothState :=
  samples.foldl (fun st x => (timeSmoothStep st x).1) s

/-- A stream of samples all carrying the same time type. -/
def typedStream (tt : String) (ms : List ℚ) : List (Option (String × ℚ)) :=
  ms.map fun m => some (tt, m)

/-! ## Icon selection (src/battery_indicator.py, lines 665-711) -/

/-- Model of `get_icon_name`. `icons_path` is `self.icons_path` (custom
icon directory found at startup, or `None`). -/
def get_icon_name (icons_path : Option String) (percentage : Option Int)
    (status : String) : String :=
  match percentage with
  | none => if icons_path.isSome then "bat-ind-missing" else "battery-missing-symbolic"
  | some p =>
    let is_charging := pyLower status = "charging"
    if icons_path.isSome then
      -- lines 683-697: custom icon branch, hardcoded thresholds
      if is_charging then "bat-ind-charging"
      else if p ≥ 80 then "bat-ind-100"
      else if p ≥ 60 then "bat-ind-80"
      else if p ≥ 40 then "bat-ind-60"
      else if p ≥ 20 then "bat-ind-40"
      else if p > 5 then "bat-ind-20"
      else "bat-ind-empty"
    else
      -- lines 699-711: system icon fallback, configured thresholds
      let suffix := if is_charging then "-charging-symbolic" else "-symbolic"
      if p ≥ BATTERY_FULL_THRESHOLD then "battery-full" ++ suffix
      else if p ≥ BATTERY_GOOD_THRESHOLD then "battery-good" ++ suffix
      else if p ≥ BATTERY_LOW_THRESHOLD then "battery-low" ++ suffix
      else if p ≥ BATTERY_CAUTION_THRESHOLD then "battery-caution" ++ suffix
      else "battery-empty-symbolic"

/-- The five icon categories named by the spec, ordered by battery level. -/
inductive IconCat where
  | emptyCat
  | cautionCat
  | lowCat
  | goodCat
  | fullCat
  deriving Repr, DecidableEq

/-- Numeric rank of a category, for stating monotonicity. -/
def IconCat.rank : IconCat → Nat
  | .emptyCat => 0
  | .cautionCat => 1
  | .lowCat => 2
  | .goodCat => 3
  | .fullCat => 4

/-- Category an icon name belongs to: the system theme names carry the
category in the name; custom `bat-ind-*` names carry none of the five
spec categories. -/
def iconCategory (name : String) : Option IconCat :=
  if name = "battery-full-symbolic" ∨ name = "battery-full-charging-symbolic" then
    some .fullCat
  else if name = "battery-good-symbolic" ∨ name = "battery-good-charging-symbolic" then
    some .goodCat
  else if name = "battery-low-symbolic" ∨ name = "battery-low-charging-symbolic" then
    some .lowCat
  else if name = "battery-caution-symbolic" ∨ name = "battery-caution-charging-symbolic" then
    some .cautionCat
  else if name = "battery-empty-symbolic" then
    some .emptyCat
  else none

/-- The category the configured thresholds assign to a percentage. -/
def thresholdCategory (p : Int) : IconCat :=
  if p ≥ BATTERY_FULL_THRESHOLD then .fullCat
  else if p ≥ BATTERY_GOOD_THRESHOLD then .goodCat
  else if p ≥ BATTERY_LOW_THRESHOLD then .lowCat
  else if p ≥ BATTERY_CAUTION_THRESHOLD then .cautionCat
  else .emptyCat

/-! ## Notifications (src/battery_indicator.py, lines 747-842) -/

/-- The three toggle settings read by `check_low_battery`
(lines 195-197, mutable through the settings dialog). -/
structure ProfileSettings where
  auto_performance_on_ac : Bool
  auto_saver_on_battery : Bool
  offer_saver_on_low : Bool
  deriving Repr, DecidableEq

/-- Mutable notification state of the indicator object
(lines 184, 190, 198-199). -/
structure NotifState where
  last_notification_level : Option Int
  saver_offered_this_session : Bool
  last_ac_status : Option Bool
  battery_health_warned : Bool
  deriving Repr, DecidableEq

/-- State set up by `BatteryIndicator.__init__`. -/
def initNotifState : NotifState := ⟨none, false, none, false⟩

/-- Environment observed during one `check_low_battery` call:
whether `powerprofilesctl` exists, what `_get_power_profile` returns,
and what `get_battery_health` returns. -/
structure PollEnv where
  pp_support : Bool
  current_profile : Option String
  health : Option Int
  deriving Repr, DecidableEq

/-- The notifications `check_low_battery` can emit via `send_notification`. -/
inductive Notif where
  | profilePerformance
  | profileSaver
  | criticalLevel (p : Int)
  | lowOffer (p : Int)
  | lowPlain (p : Int)
  | healthWarning (h : Int)
  deriving Repr, DecidableEq

/-- Line 760: `status_lower in ("charging", "full", "not charging")`. -/
def isOnAc (status : String) : Bool :=
  pyLower status = "charging" ∨ pyLower status = "full"
    ∨ pyLower status = "not charging"

/-- Lines 763-779: the automatic power profile switching block, as the
notifications it sends. -/
def acSwitchNotifs (cfg : ProfileSettings) (s : NotifState)
    (pp_support : Bool) (is_on_ac : Bool) : List Notif :=
  if pp_support ∧ s.last_ac_status ≠ none
      ∧ s.last_ac_status ≠ some is_on_ac then
    if is_on_ac ∧ cfg.auto_performance_on_ac then [.profilePerformance]
    else if ¬ is_on_ac ∧ cfg.auto_saver_on_battery then [.profileSaver]
    else []
  else []

/-- Lines 788-831: the critical / low / reset branch of
`check_low_battery`, taken with `is_on_ac` false. -/
def levelPhase (cfg : ProfileSettings) (env : PollEnv) (s1 : NotifState)
    (p : Int) : NotifState × List Notif :=
  if p ≤ CRITICAL_BATTERY_THRESHOLD then
    if s1.last_notification_level ≠ some CRITICAL_BATTERY_THRESHOLD then
      ({ s1 with last_notification_level := some CRITICAL_BATTERY_THRESHOLD },
        [Notif.criticalLevel p])
    else (s1, [])
  else if p ≤ LOW_BATTERY_THRESHOLD then
    if s1.last_notification_level ≠ some LOW_BATTERY_THRESHOLD then
      if cfg.offer_saver_on_low ∧ ¬ s1.saver_offered_this_session
          ∧ env.pp_support then
        if env.current_profile ≠ some "power-saver" then
          ({ s1 with last_notification_level := some LOW_BATTERY_THRESHOLD,
                     saver_offered_this_session := true }, [Notif.lowOffer p])
        else
          ({ s1 with last_notification_level := some LOW_BATTERY_THRESHOLD },
            [Notif.lowPlain p])
      else
        ({ s1 with last_notification_level := some LOW_BATTERY_THRESHOLD },
          [Notif.lowPlain p])
    else (s1, [])
  else
    ({ s1 with last_notification_level := none }, [])

/-- Line 836: `if health is not None and health < 40`, given the value
`get_battery_health` returned. -/
def healthCheck : Option Int → NotifState → NotifState × List Notif
  | some h, s2 =>
    if h < 40 then
      ({ s2 with battery_health_warned := true }, [Notif.healthWarning h])
    else (s2, [])
  | none, s2 => (s2, [])

/-- Lines 833-842: the battery health check, run at most once per
session. -/
def healthPhase (env : PollEnv) (s2 : NotifState) : NotifState × List Notif :=
  if ¬ s2.battery_health_warned then healthCheck env.health s2
  else (s2, [])

/-- Model of `check_low_battery` (lines 747-842): returns the updated
state and the notifications sent, in order. -/
def check_low_battery (cfg : ProfileSettings) (env : PollEnv) (s : NotifState)
    (percentage : Option Int) (status : String) : NotifState × List Notif :=
  match percentage with
  | none => (s, [])
  | some p =>
    let is_on_ac := isOnAc status
    let acNotifs := acSwitchNotifs cfg s env.pp_support is_on_ac
    let s1 := if env.pp_support then { s with last_ac_status := some is_on_ac } else s
    -- lines 782-786: charging resets the notification state and returns
    if is_on_ac then
      ({ s1 with last_notification_level := none,
                 saver_offered_this_session := false }, acNotifs)
    else
      let ls := levelPhase cfg env s1 p
      let hs := healthPhase env ls.1
      (hs.1, acNotifs ++ ls.2 ++ hs.2)

/-- Inputs to one poll of `check_low_battery`. -/
structure PollInput where
  cfg : ProfileSettings
  env : PollEnv
  percentage : Option Int
  status : String
  deriving Repr, DecidableEq

/-- Run a trace of polls, accumulating all notifications sent in order. -/
def notifRun (s : NotifState) : List PollInput → NotifState × List Notif
  | [] => (s, [])
  | i :: rest =>
    let r := check_low_battery i.cfg i.env s i.percentage i.status
    let rr := notifRun r.1 rest
    (rr.1, r.2 ++ rr.2)

/-- True for the low-battery and critical-battery notifications. -/
def isLevelNotif : Notif → Bool
  | .criticalLevel _ => true
  | .lowOffer _ => true
  | .lowPlain _ => true
  | _ => false

/-- True for the battery-health warning. -/
def isHealthNotif : Notif → Bool
  | .healthWarning _ => true
  | _ => false

def countLevelNotifs (l : List Notif) : Nat := (l.filter isLevelNotif).length

def countHealthNotifs (l : List Notif) : Nat := (l.filter isHealthNotif).length

/-! ## Adaptive poll interval (src/battery_indicator.py, lines 230-235 and 1045-1065) -/

/-- Timer state: the stored interval (line 192) and a generation counter
standing for the identity of the GLib timeout source (line 191); tearing
down and re-arming the timer bumps the generation. -/
structure TimerState where
  current_update_interval : Int
  source_generation : Nat
  deriving Repr, DecidableEq

/-- Desired interval computed by `_periodic_update` (lines 1057-1059):
the cutoff 20 and the low interval 10 are hardcoded there. -/
def desired_interval (p : Int) : Int :=
  if p < 20 then 10 else UPDATE_INTERVAL

/-- Model of the interval-adaptation part of `_periodic_update`
(lines 1054-1065) together with `_setup_update_timer` (lines 230-235).
Returns the new timer state and the boolean the callback returns
(`true` keeps the existing timeout alive). -/
def periodic_update_timer (s : TimerState) (percentage : Option Int) :
    TimerState × Bool :=
  match percentage with
  | none => (s, true)
  | some p =>
    let new_interval := desired_interval p
    if new_interval ≠ s.current_update_interval then
      (⟨new_interval, s.source_generation + 1⟩, false)
    else (s, true)

/-! ## Sysfs reads and percentage (src/battery_indicator.py, lines 536-569) -/

/-- Outcome of `open(...).read()` on a sysfs file. -/
inductive FileReadOutcome where
  | ok (content : String)
  | ioError
  deriving Repr, DecidableEq

/-- Model of `_read_battery_file` (lines 536-554). -/
def read_battery_file (battery_path : Option String)
    (outcome : FileReadOutcome) : Option String :=
  match battery_path with
  | none => none
  | some _ =>
    match outcome with
    | .ok c => some (pyStrip c)
    | .ioError => none

/-- Value of a nonempty all-digit character list, as Python reads it. -/
def digitsVal (cs : List Char) : Option Nat :=
  if cs.isEmpty then none
  else if cs.all Char.isDigit then
    some (cs.foldl (fun a c => 10 * a + (c.toNat - 48)) 0)
  else none

/-- Model of the Python builtin `int(str)` used at line 566: optional
sign, decimal digits, surrounding whitespace allowed; `none` models
`ValueError`. -/
def pyInt (s : String) : Option Int :=
  match pyStripChars s.data with
  | [] => none
  | c :: rest =>
    if c = '+' then (digitsVal rest).map Int.ofNat
    else if c = '-' then (digitsVal rest).map fun k => -(k : Int)
    else (digitsVal (c :: rest)).map Int.ofNat

/-- Model of `get_battery_percentage` (lines 556-569), taking the result
of `_read_battery_file "capacity"`. -/
def get_battery_percentage (capacity : Option String) : Option Int :=
  match capacity with
  | none => none
  | some c => pyInt c

/-- Decimal rendering of a natural number, used to exhibit concrete
capacity-file contents. -/
def natDigitChars (n : Nat) : List Char :=
  if _h : n < 10 then [Nat.digitChar n]
  else natDigitChars (n / 10) ++ [Nat.digitChar (n % 10)]
  decreasing_by exact Nat.div_lt_self (by omega) (by norm_num)

/-! ## upower invocation (src/battery_indicator.py, lines 597-663) -/

/-- Outcome of `subprocess.run`: captured stdout, or one of the caught
exceptions (`subprocess.SubprocessError`, `FileNotFoundError`). -/
inductive SubprocessOutcome where
  | ok (stdout : String)
  | error
  deriving Repr, DecidableEq

/-- Python exceptions that can escape the modelled code. -/
inductive PyError where
  | indexError
  deriving Repr, DecidableEq

/-- Split a character list at every occurrence of `sep`, keeping empty
fields; models Python `str.split(sep)`. -/
def splitCharsOn (sep : Char) : List Char → List (List Char)
  | [] => [[]]
  | c :: rest =>
    let r := splitCharsOn sep rest
    if c = sep then [] :: r
    else (c :: r.headD []) :: r.tail

/-- Model of the `output.split` call on newlines at line 622. -/
def pySplitLines (s : String) : List String :=
  (splitCharsOn '\n' s.data).map fun l => ⟨l⟩

/-- First split at a colon, if any: the pieces before and after it. -/
def splitOnceColon : List Char → Option (List Char × List Char)
  | [] => none
  | c :: rest =>
    if c = ':' then some ([], rest)
    else (splitOnceColon rest).map fun p => (c :: p.1, p.2)

/-- Model of Python `line.split(':', 1)`. -/
def pySplitColon1 (line : String) : List String :=
  match splitOnceColon line.data with
  | some (a, b) => [⟨a⟩, ⟨b⟩]
  | none => [line]

/-- Model of the scanning loop at lines 622-630: find the first line
mentioning a time estimate and take the text after the colon. The
subscript `[1]` on `line.split(':', 1)` raises `IndexError` when the
line has no colon; that exception is not in the `except` clause at line
662, so it is modelled as an `Except.error`. -/
def scanTimeLines : List String → Except PyError (Option (String × String))
  | [] => Except.ok none
  | line :: rest =>
    if pyContains (pyLower line) "time to empty" then
      match pySplitColon1 line with
      | [_, second] => Except.ok (some ("remaining", pyStrip second))
      | _ => Except.error PyError.indexError
    else if pyContains (pyLower line) "time to full" then
      match pySplitColon1 line with
      | [_, second] => Except.ok (some ("until full", pyStrip second))
      | _ => Except.error PyError.indexError
    else scanTimeLines rest

/-- Render of the smoothed average (lines 647-653). The average is a
mean of strictly positive samples, so `int()` truncation agrees with
the floor used here. -/
def format_time (avg : ℚ) : String :=
  let hours : Int := ⌊avg / 60⌋
  let mins : Int := ⌊avg - 60 * (⌊avg / 60⌋ : ℚ)⌋
  if hours > 0 then toString hours ++ " hr " ++ toString mins ++ " min"
  else toString mins ++ " min"

/-- Model of `get_time_remaining` (lines 597-663). `valOf` gives the
outcome of the builtin `float` on the first token of the raw time
string. An `Except.error` value is an exception escaping to the caller;
`Except.ok` carries the new smoothing state and the returned pair. -/
def get_time_remaining (battery_path : Option String)
    (upower : SubprocessOutcome) (valOf : String → Option ℚ) (status : String)
    (s : SmoothState) : Except PyError (SmoothState × String × String) :=
  match battery_path with
  | none => .ok (s, "Unknown", "status")
  | some _ =>
    match upower with
    | .error => .ok (s, "Unknown", "status")
    | .ok output =>
      match scanTimeLines (pySplitLines output) with
      | .error e => .error e
      | .ok found =>
        let sample : Option (String × ℚ) :=
          match found with
          | some (tt, raw) =>
            if raw.isEmpty then none
            else
              let parts := pySplitWs (pyStrip raw)
              some (tt, parse_upower_time_to_minutes parts (valOf (parts.getD 0 "")))
          | none => none
        let stepped := timeSmoothStep s sample
        match stepped.2 with
        | some avg =>
          .ok (stepped.1, format_time avg,
            (match found with
              | some (tt, _) => tt
              | none => "status"))
        | none =>
          if status = "Full" then .ok (stepped.1, "Fully Charged", "status")
          else .ok (stepped.1, "Estimating...", "status")

/-- Model of `_get_power_profile` (lines 276-289). -/
def get_power_profile (pp_support : Bool) (outcome : SubprocessOutcome) :
    Option String :=
  if pp_support then
    match outcome with
    | .ok out => some (pyStrip out)
    | .error => none
  else none

/-! ## Helper lemmas about the smoothing window -/

theorem lastN_append_left (n : Nat) (v w : List ℚ) :
    lastN n (lastN n v ++ w) = lastN n (v ++ w) := by
  unfold lastN
  rw [← List.drop_append_of_le_length (Nat.sub_le v.length n), List.drop_drop]
  congr 1
  simp only [List.length_append, List.length_drop]
  omega

theorem dequeAppend_eq_lastN (h : List ℚ) (m : ℚ) :
    dequeAppend 5 h m = lastN 5 (h ++ [m]) := rfl

theorem lastN_length_le (n : Nat) (l : List ℚ) : (lastN n l).length ≤ n := by
  simp only [lastN, List.length_drop]
  omega

theorem smoothRun_cons (s : SmoothState) (x : Option (String × ℚ))
    (xs : List (Option (String × ℚ))) :
    smoothRun s (x :: xs) = smoothRun (timeSmoothStep s x).1 xs := rfl

theorem timeSmoothStep_same_type (v : List ℚ) (tt : String) (m : ℚ) :
    timeSmoothStep ⟨v, some tt⟩ (some (tt, m))
      = if 0 < m then
          (⟨dequeAppend 5 v m, some tt⟩, some (listMean (dequeAppend 5 v m)))
        else (⟨v, some tt⟩, none) := by
  simp [timeSmoothStep]

theorem smoothRun_typed_from (tt : String) (ms : List ℚ) : ∀ v : List ℚ,
    smoothRun ⟨lastN 5 v, some tt⟩ (typedStream tt ms)
      = ⟨lastN 5 (v ++ ms.filter (fun x => 0 < x)), some tt⟩ := by
  induction ms with
  | nil => intro v; simp [smoothRun, typedStream]
  | cons m rest ih =>
    intro v
    show smoothRun _ (some (tt, m) :: typedStream tt rest) = _
    rw [smoothRun_cons, timeSmoothStep_same_type]
    by_cases hm : 0 < m
    · rw [if_pos hm]
      simp only [dequeAppend_eq_lastN, lastN_append_left]
      rw [ih (v ++ [m])]
      simp [List.filter_cons, hm, List.append_assoc]
    · rw [if_neg hm]
      rw [ih v]
      simp [List.filter_cons, hm]

theorem smoothRun_typed_init (tt : String) (m : ℚ) (rest : List ℚ) :
    smoothRun initSmooth (typedStream tt (m :: rest))
      = ⟨lastN 5 ((m :: rest).filter (fun x => 0 < x)), some tt⟩ := by
  show smoothRun _ (some (tt, m) :: typedStream tt rest) = _
  rw [smoothRun_cons]
  have hstep : (timeSmoothStep initSmooth (some (tt, m))).1
      = if 0 < m then ⟨lastN 5 [m], some tt⟩ else ⟨lastN 5 [], some tt⟩ := by
    by_cases hm : 0 < m
    · simp [timeSmoothStep, initSmooth, hm, dequeAppend, lastN]
    · simp [timeSmoothStep, initSmooth, hm, lastN]
  rw [hstep]
  by_cases hm : 0 < m
  · rw [if_pos hm, smoothRun_typed_from]
    simp [List.filter_cons, hm]
  · rw [if_neg hm, smoothRun_typed_from]
    simp [List.filter_cons, hm]

/-! ## Claim theorems -/

/-- C1: feeding any sequence of same-type time-estimate samples through
the smoothing logic of `get_time_remaining`, the smoothed
duration reported for a valid (strictly positive) sample equals the
arithmetic mean of at most the last 5 valid samples, taken in insertion
order with the oldest evicted when the window is full; the buffer holds
exactly those samples. -/
theorem C1_smoothed_mean (tt : String) (ms : List ℚ) (m : ℚ) (hm : 0 < m) :
    (timeSmoothStep (smoothRun initSmooth (typedStream tt ms)) (some (tt, m))).2
        = some (listMean (lastN 5 ((ms ++ [m]).filter (fun x => 0 < x))))
      ∧ (timeSmoothStep (smoothRun initSmooth (typedStream tt ms))
          (some (tt, m))).1.time_history
        = lastN 5 ((ms ++ [m]).filter (fun x => 0 < x))
      ∧ (lastN 5 ((ms ++ [m]).filter (fun x => 0 < x))).length ≤ 5 := by
  cases ms with
  | nil =>
    have hstep := timeSmoothStep_same_type [] tt m
    constructor
    · simp [smoothRun, typedStream, initSmooth, timeSmoothStep, hm,
        dequeAppend, lastN, List.filter_cons]
    constructor
    · simp [smoothRun, typedStream, initSmooth, timeSmoothStep, hm,
        dequeAppend, lastN, List.filter_cons]
    · exact lastN_length_le 5 _
  | cons m0 rest =>
    have hfil : ((m0 :: rest) ++ [m]).filter (fun x => 0 < x)
        = (m0 :: rest).filter (fun x => 0 < x) ++ [m] := by
      rw [List.filter_append]
      simp [hm]
    rw [smoothRun_typed_init, timeSmoothStep_same_type, if_pos hm, hfil]
    refine ⟨?_, ?_, lastN_length_le 5 _⟩
    · simp only [dequeAppend_eq_lastN, lastN_append_left]
    · simp only [dequeAppend_eq_lastN, lastN_append_left]

/-- Witness for C1 at a concrete sample sequence: after the samples
10, 0 (invalid, discarded), 20, 30, 40, 50, 60, a new sample 70 is
reported as the mean of the last five valid samples 30, 40, 50, 60, 70,
namely 50 minutes. -/
theorem C1_smoothed_mean_witness :
    (timeSmoothStep (smoothRun initSmooth
        (typedStream "remaining" [10, 0, 20, 30, 40, 50, 60]))
        (some ("remaining", 70))).2 = some (50 : ℚ) := by
  have h := (C1_smoothed_mean "remaining" [10, 0, 20, 30, 40, 50, 60] 70
    (by decide)).1
  rw [h]
  norm_num [listMean, lastN, List.filter]

/-- C2: whenever the reported estimate type differs from the stored
`last_time_type`, the smoothing buffer is cleared before the new sample
is recorded, so the buffer and the smoothed output afterwards involve
only the new sample of the new type. -/
theorem C2_type_change_clears (s : SmoothState) (tt : String) (m : ℚ)
    (h : some tt ≠ s.last_time_type) :
    (timeSmoothStep s (some (tt, m))).1.time_history
        = (if 0 < m then [m] else [])
      ∧ (timeSmoothStep s (some (tt, m))).1.last_time_type = some tt
      ∧ (timeSmoothStep s (some (tt, m))).2
        = (if 0 < m then some (m : ℚ) else none) := by
  by_cases hm : 0 < m
  · refine ⟨?_, ?_, ?_⟩
    · simp [timeSmoothStep, if_pos h, hm, dequeAppend]
    · simp [timeSmoothStep, if_pos h, hm]
    · simp [timeSmoothStep, if_pos h, hm, dequeAppend, listMean]
  · simp [timeSmoothStep, if_pos h, hm]

/-- Witness for C2: with the buffer holding 5 and 6 of type
"remaining", a sample 3 of type "until full" yields a buffer holding
only 3 and a smoothed output of 3. -/
theorem C2_type_change_clears_witness :
    (timeSmoothStep ⟨[5, 6], some "remaining"⟩ (some ("until full", 3))).1.time_history
        = [3]
      ∧ (timeSmoothStep ⟨[5, 6], some "remaining"⟩
          (some ("until full", 3))).1.last_time_type = some "until full"
      ∧ (timeSmoothStep ⟨[5, 6], some "remaining"⟩ (some ("until full", 3))).2
        = some (3 : ℚ) := by
  have h := C2_type_change_clears ⟨[5, 6], some "remaining"⟩ "until full" 3
    (by decide)
  refine ⟨?_, h.2.1, ?_⟩
  · rw [h.1]
    decide
  · rw [h.2.2]
    decide

/-- C3: a sample that is unparseable (fewer than two whitespace
fields, non-numeric value, or unit naming neither hours nor minutes)
parses to 0 minutes, and a sample parsing to 0 is never inserted: the
buffer afterwards is what it was before apart from the clear a
simultaneous type change triggers, and no smoothed time is reported. -/
theorem C3_invalid_sample_discarded (s : SmoothState) (tt : String)
    (parts : List String) (val? : Option ℚ) :
    (parts.length < 2 → parse_upower_time_to_minutes parts val? = 0)
    ∧ (val? = none → parse_upower_time_to_minutes parts val? = 0)
    ∧ (pyContains (pyLower (parts[1]?.getD "")) "hour" = false →
        pyContains (pyLower (parts[1]?.getD "")) "minute" = false →
        parse_upower_time_to_minutes parts val? = 0)
    ∧ (parse_upower_time_to_minutes parts val? = 0 →
        (timeSmoothStep s (some (tt, parse_upower_time_to_minutes parts val?))).1.time_history
          = (if some tt ≠ s.last_time_type then [] else s.time_history)
        ∧ (timeSmoothStep s
            (some (tt, parse_upower_time_to_minutes parts val?))).2 = none) := by
  refine ⟨?_, ?_, ?_, ?_⟩
  · intro hlen
    simp [parse_upower_time_to_minutes, hlen]
  · intro hval
    subst hval
    simp only [parse_upower_time_to_minutes]
    split <;> rfl
  · intro hh hmin
    by_cases hlen : parts.length < 2
    · simp [parse_upower_time_to_minutes, hlen]
    · cases val? with
      | none => simp [parse_upower_time_to_minutes, hlen]
      | some v => simp [parse_upower_time_to_minutes, hlen, hh, hmin]
  · intro h0
    rw [h0]
    constructor
    · simp only [timeSmoothStep, lt_self_iff_false, if_false]
      split <;> rfl
    · simp [timeSmoothStep]

/-- Witness for C3 at concrete bad samples: a one-field string, a
non-numeric value, and an unrecognised unit all parse to 0, and feeding
the resulting 0 sample leaves a buffer holding 3 unchanged with no
smoothed time reported. -/
theorem C3_invalid_sample_discarded_witness :
    parse_upower_time_to_minutes ["5"] (some 5) = 0
    ∧ parse_upower_time_to_minutes ["5", "volts"] none = 0
    ∧ parse_upower_time_to_minutes ["5", "volts"] (some 5) = 0
    ∧ (timeSmoothStep ⟨[3], some "remaining"⟩
        (some ("remaining", parse_upower_time_to_minutes ["5", "volts"] (some 5)))).1.time_history
      = [3]
    ∧ (timeSmoothStep ⟨[3], some "remaining"⟩
        (some ("remaining", parse_upower_time_to_minutes ["5", "volts"] (some 5)))).2
      = none := by
  have h1 := (C3_invalid_sample_discarded ⟨[3], some "remaining"⟩ "remaining"
    ["5"] (some 5)).1 (by decide)
  have h2 := (C3_invalid_sample_discarded ⟨[3], some "remaining"⟩ "remaining"
    ["5", "volts"] none).2.1 rfl
  have h3 := (C3_invalid_sample_discarded ⟨[3], some "remaining"⟩ "remaining"
    ["5", "volts"] (some 5)).2.2.1 (by decide) (by decide)
  have h4 := (C3_invalid_sample_discarded ⟨[3], some "remaining"⟩ "remaining"
    ["5", "volts"] (some 5)).2.2.2 h3
  refine ⟨h1, h2, h3, ?_, h4.2⟩
  rw [h4.1]
  decide

/-- Counterexample to C4 as stated: when the custom icon set is present
(`icons_path` non-None), `get_icon_name` does not partition percentages
by the configured thresholds. 55% and 45% yield the same icon name even
though the configured thresholds place them in the distinct categories
good and low, and 79% yields a custom name belonging to none of the
five spec categories instead of the good category. -/
theorem C4_counterexample :
    get_icon_name (some "/opt/battery-indicator/icons") (some 55) "Discharging"
        = get_icon_name (some "/opt/battery-indicator/icons") (some 45) "Discharging"
      ∧ thresholdCategory 55 ≠ thresholdCategory 45
      ∧ iconCategory
          (get_icon_name (some "/opt/battery-indicator/icons") (some 79) "Discharging")
        = none := by
  refine ⟨rfl, by decide, rfl⟩

/-- C4 (amended): in the system-icon fallback (no custom icon set),
which is where the configured thresholds are consulted, the icon
returned by `get_icon_name` for every percentage and non-charging
status carries exactly the category the ordered configured thresholds
assign (full at and above BATTERY_FULL_THRESHOLD, then good, low,
caution, empty in descending threshold order); the category is monotone
in the percentage, and with the default thresholds 80 is full while 79
is good. -/
theorem C4_threshold_partition (p q : Int) (status : String)
    (hch : pyLower status ≠ "charging") :
    iconCategory (get_icon_name none (some p) status)
        = some (thresholdCategory p)
      ∧ (p ≥ BATTERY_FULL_THRESHOLD ↔ thresholdCategory p = IconCat.fullCat)
      ∧ (p ≤ q → (thresholdCategory p).rank ≤ (thresholdCategory q).rank)
      ∧ thresholdCategory 80 = IconCat.fullCat
      ∧ thresholdCategory 79 = IconCat.goodCat := by
  refine ⟨?_, ?_, ?_, by decide, by decide⟩
  · simp only [get_icon_name, thresholdCategory]
    simp only [Option.isSome_none, Bool.false_eq_true, if_false, if_neg hch]
    split_ifs <;> rfl
  · constructor
    · intro hge
      simp only [thresholdCategory, if_pos hge]
    · intro heq
      by_contra hlt
      simp only [thresholdCategory, if_neg hlt] at heq
      split_ifs at heq
  · intro hpq
    unfold thresholdCategory BATTERY_FULL_THRESHOLD BATTERY_GOOD_THRESHOLD
      BATTERY_LOW_THRESHOLD BATTERY_CAUTION_THRESHOLD
    split_ifs <;> simp [IconCat.rank] <;> omega

/-- Witness for C4 (amended) at 80% and 79% discharging with no custom
icons: the full icon at 80 and the good icon at 79. -/
theorem C4_threshold_partition_witness :
    iconCategory (get_icon_name none (some 80) "Discharging")
        = some IconCat.fullCat
      ∧ iconCategory (get_icon_name none (some 79) "Discharging")
        = some IconCat.goodCat := by
  have h80 := C4_threshold_partition 80 80 "Discharging" (by decide)
  have h79 := C4_threshold_partition 79 79 "Discharging" (by decide)
  constructor
  · rw [h80.1, h80.2.2.2.1]
  · rw [h79.1]
    have : thresholdCategory 79 = IconCat.goodCat := h79.2.2.2.2
    rw [this]

/-- Counterexample to C6 as stated: a tick at 16%, which is not below
the configured LOW_BATTERY_THRESHOLD (15), still switches the poll
interval to 10 because `_periodic_update` hardcodes the cutoff 20. The
claim predicts the default UPDATE_INTERVAL (30) there. -/
theorem C6_counterexample :
    ¬ ((16 : Int) < LOW_BATTERY_THRESHOLD)
      ∧ (periodic_update_timer ⟨UPDATE_INTERVAL, 0⟩ (some 16)).1.current_update_interval
        = LOW_BATTERY_UPDATE_INTERVAL
      ∧ LOW_BATTERY_UPDATE_INTERVAL ≠ UPDATE_INTERVAL := by
  refine ⟨by decide, by decide, by decide⟩

/-- C6 (amended): after each periodic tick with a known percentage, the
stored poll interval equals LOW_BATTERY_UPDATE_INTERVAL (numerically
10, hardcoded at line 1059) whenever the percentage is below the
hardcoded cutoff 20 — not the configured LOW_BATTERY_THRESHOLD — and
equals the configured UPDATE_INTERVAL otherwise. -/
theorem C6_adaptive_interval (s : TimerState) (p : Int) :
    (periodic_update_timer s (some p)).1.current_update_interval
      = if p < 20 then LOW_BATTERY_UPDATE_INTERVAL else UPDATE_INTERVAL := by
  by_cases h : desired_interval p = s.current_update_interval
  · simp only [periodic_update_timer, if_neg (by simp [h] : ¬ desired_interval p ≠ s.current_update_interval)]
    rw [← h]
    simp [desired_interval, LOW_BATTERY_UPDATE_INTERVAL]
  · simp only [periodic_update_timer, if_pos h]
    simp [desired_interval, LOW_BATTERY_UPDATE_INTERVAL]

/-- C7: on a periodic tick the timer is torn down and re-armed only
when the recomputed desired period differs from the stored one: with an
unknown percentage, or when the desired interval already equals
`current_update_interval`, the timer source and the stored interval are
left unchanged and the callback returns True so the existing timeout
continues; otherwise the source is replaced and False stops the old
timeout. -/
theorem C7_rearm_only_on_change (s : TimerState) (p : Int) :
    periodic_update_timer s none = (s, true)
    ∧ (desired_interval p = s.current_update_interval →
        periodic_update_timer s (some p) = (s, true))
    ∧ (desired_interval p ≠ s.current_update_interval →
        periodic_update_timer s (some p)
          = (⟨desired_interval p, s.source_generation + 1⟩, false)) := by
  refine ⟨rfl, ?_, ?_⟩
  · intro h
    simp only [periodic_update_timer,
      if_neg (by simp [h] : ¬ desired_interval p ≠ s.current_update_interval)]
  · intro h
    simp only [periodic_update_timer, if_pos h]

/-- Witness for C7: at 50% with the default interval stored, the tick
keeps the timer source and interval unchanged and returns True. -/
theorem C7_rearm_only_on_change_witness :
    periodic_update_timer ⟨30, 7⟩ (some 50) = (⟨30, 7⟩, true) :=
  (C7_rearm_only_on_change ⟨30, 7⟩ 50).2.1 (by decide)

theorem countLevelNotifs_append (a b : List Notif) :
    countLevelNotifs (a ++ b) = countLevelNotifs a + countLevelNotifs b := by
  simp [countLevelNotifs, List.filter_append]

theorem countHealthNotifs_append (a b : List Notif) :
    countHealthNotifs (a ++ b) = countHealthNotifs a + countHealthNotifs b := by
  simp [countHealthNotifs, List.filter_append]

theorem acSwitch_no_level (cfg : ProfileSettings) (s : NotifState)
    (pp ac : Bool) : countLevelNotifs (acSwitchNotifs cfg s pp ac) = 0 := by
  unfold acSwitchNotifs
  split_ifs <;> rfl

theorem acSwitch_no_health (cfg : ProfileSettings) (s : NotifState)
    (pp ac : Bool) : countHealthNotifs (acSwitchNotifs cfg s pp ac) = 0 := by
  unfold acSwitchNotifs
  split_ifs <;> rfl

theorem healthPhase_keeps_level (env : PollEnv) (x : NotifState) :
    (healthPhase env x).1.last_notification_level
      = x.last_notification_level := by
  unfold healthPhase
  cases hh : env.health <;> split_ifs <;> (try simp only [healthCheck]) <;>
    (try split_ifs) <;> rfl

theorem healthPhase_no_level (env : PollEnv) (x : NotifState) :
    countLevelNotifs (healthPhase env x).2 = 0 := by
  unfold healthPhase
  cases hh : env.health <;> split_ifs <;> (try simp only [healthCheck]) <;>
    (try split_ifs) <;> rfl

theorem healthPhase_le (env : PollEnv) (x : NotifState) :
    countHealthNotifs (healthPhase env x).2 ≤ 1 := by
  unfold healthPhase
  cases hh : env.health <;> split_ifs <;> (try simp only [healthCheck]) <;>
    (try split_ifs) <;> simp [countHealthNotifs, isHealthNotif]

theorem healthPhase_warned (env : PollEnv) (x : NotifState)
    (hw : x.battery_health_warned = true) : healthPhase env x = (x, []) := by
  unfold healthPhase
  rw [if_neg (by simp [hw])]

theorem healthPhase_mono (env : PollEnv) (x : NotifState)
    (hw : x.battery_health_warned = true) :
    (healthPhase env x).1.battery_health_warned = true := by
  rw [healthPhase_warned env x hw]
  exact hw

theorem healthPhase_unwarned_after (env : PollEnv) (x : NotifState)
    (hw : (healthPhase env x).1.battery_health_warned = false) :
    (healthPhase env x).2 = [] := by
  unfold healthPhase at hw ⊢
  cases hh : env.health <;> split_ifs at hw ⊢ <;>
    (try simp only [healthCheck] at hw ⊢) <;> (try split_ifs at hw ⊢) <;>
    simp_all

theorem levelPhase_keeps_warned (cfg : ProfileSettings) (env : PollEnv)
    (x : NotifState) (p : Int) :
    (levelPhase cfg env x p).1.battery_health_warned
      = x.battery_health_warned := by
  unfold levelPhase
  split_ifs <;> rfl

theorem levelPhase_no_health (cfg : ProfileSettings) (env : PollEnv)
    (x : NotifState) (p : Int) :
    countHealthNotifs (levelPhase cfg env x p).2 = 0 := by
  unfold levelPhase
  split_ifs <;> rfl

theorem levelPhase_band (cfg : ProfileSettings) (env : PollEnv)
    (x : NotifState) (p : Int) (h1 : CRITICAL_BATTERY_THRESHOLD < p)
    (h2 : p ≤ LOW_BATTERY_THRESHOLD) :
    (levelPhase cfg env x p).1.last_notification_level
        = some LOW_BATTERY_THRESHOLD
      ∧ countLevelNotifs (levelPhase cfg env x p).2
        = (if x.last_notification_level = some LOW_BATTERY_THRESHOLD
            then 0 else 1) := by
  have hc : ¬ (p ≤ CRITICAL_BATTERY_THRESHOLD) := not_le.mpr h1
  unfold levelPhase
  rw [if_neg hc, if_pos h2]
  by_cases hL : x.last_notification_level = some LOW_BATTERY_THRESHOLD
  · rw [if_neg (by simp [hL]), if_pos hL]
    exact ⟨hL, rfl⟩
  · rw [if_pos hL, if_neg hL]
    split_ifs <;> simp [countLevelNotifs, isLevelNotif]

theorem levelPhase_above (cfg : ProfileSettings) (env : PollEnv)
    (x : NotifState) (p : Int) (h2 : ¬ p ≤ LOW_BATTERY_THRESHOLD) :
    (levelPhase cfg env x p).1.last_notification_level = none := by
  have hc : ¬ (p ≤ CRITICAL_BATTERY_THRESHOLD) := by
    unfold CRITICAL_BATTERY_THRESHOLD LOW_BATTERY_THRESHOLD at *
    omega
  unfold levelPhase
  rw [if_neg hc, if_neg h2]

theorem s1_keeps_fields (s : NotifState) (pp : Bool) (ac : Bool) :
    ((if pp = true then { s with last_ac_status := some ac } else s) : NotifState).last_notification_level
        = s.last_notification_level
      ∧ ((if pp = true then { s with last_ac_status := some ac } else s) : NotifState).battery_health_warned
        = s.battery_health_warned
      ∧ ((if pp = true then { s with last_ac_status := some ac } else s) : NotifState).saver_offered_this_session
        = s.saver_offered_this_session := by
  split_ifs <;> exact ⟨rfl, rfl, rfl⟩

theorem discharging_band_step (cfg : ProfileSettings) (env : PollEnv)
    (s : NotifState) (p : Int) (h1 : CRITICAL_BATTERY_THRESHOLD < p)
    (h2 : p ≤ LOW_BATTERY_THRESHOLD) :
    (check_low_battery cfg env s (some p) "Discharging").1.last_notification_level
        = some LOW_BATTERY_THRESHOLD
      ∧ countLevelNotifs (check_low_battery cfg env s (some p) "Discharging").2
        = (if s.last_notification_level = some LOW_BATTERY_THRESHOLD
            then 0 else 1) := by
  have hac : isOnAc "Discharging" = false := by decide
  simp only [check_low_battery, hac, Bool.false_eq_true, if_false]
  constructor
  · rw [healthPhase_keeps_level, (levelPhase_band cfg env _ p h1 h2).1]
  · simp only [countLevelNotifs_append, acSwitch_no_level, healthPhase_no_level,
      (levelPhase_band cfg env _ p h1 h2).2, (s1_keeps_fields s env.pp_support false).1]
    omega

theorem band_run_no_more (tr : List PollInput) : ∀ s : NotifState,
    (∀ i ∈ tr, i.status = "Discharging"
      ∧ ∃ p, i.percentage = some p ∧ CRITICAL_BATTERY_THRESHOLD < p
          ∧ p ≤ LOW_BATTERY_THRESHOLD) →
    s.last_notification_level = some LOW_BATTERY_THRESHOLD →
    countLevelNotifs (notifRun s tr).2 = 0 := by
  induction tr with
  | nil => intro s _ _; rfl
  | cons i rest ih =>
    intro s hband hs
    obtain ⟨hst, p, hp, hp1, hp2⟩ := hband i (by simp)
    have hstep := discharging_band_step i.cfg i.env s p hp1 hp2
    simp only [notifRun, countLevelNotifs_append]
    rw [hp, hst, hstep.2, if_pos hs]
    have hzero := ih (check_low_battery i.cfg i.env s (some p) "Discharging").1
      (fun j hj => hband j (by simp [hj])) hstep.1
    omega

theorem check_health_warned (cfg : ProfileSettings) (env : PollEnv)
    (s : NotifState) (p? : Option Int) (st : String)
    (hw : s.battery_health_warned = true) :
    countHealthNotifs (check_low_battery cfg env s p? st).2 = 0
    ∧ (check_low_battery cfg env s p? st).1.battery_health_warned = true := by
  cases p? with
  | none => exact ⟨rfl, hw⟩
  | some p =>
    by_cases hac2 : isOnAc st = true
    · simp [check_low_battery, hac2, acSwitch_no_health]
      rw [(s1_keeps_fields s env.pp_support true).2.1]
      exact hw
    · have hac3 : isOnAc st = false := by revert hac2; simp
      have hw1 : ((if env.pp_support = true
          then { s with last_ac_status := some false } else s) : NotifState).battery_health_warned = true := by
        rw [(s1_keeps_fields s env.pp_support false).2.1]; exact hw
      have hw2 := (levelPhase_keeps_warned cfg env _ p).trans hw1
      have hhp := healthPhase_warned env _ hw2
      simp only [check_low_battery, hac3, Bool.false_eq_true, if_false,
        countHealthNotifs_append, acSwitch_no_health, levelPhase_no_health, hhp]
      exact ⟨rfl, hw2⟩

theorem check_health_le (cfg : ProfileSettings) (env : PollEnv)
    (s : NotifState) (p? : Option Int) (st : String) :
    countHealthNotifs (check_low_battery cfg env s p? st).2 ≤ 1 := by
  cases p? with
  | none => exact Nat.zero_le 1
  | some p =>
    by_cases hac2 : isOnAc st = true
    · simp [check_low_battery, hac2, acSwitch_no_health]
    · have hac3 : isOnAc st = false := by revert hac2; simp
      simp only [check_low_battery, hac3, Bool.false_eq_true, if_false,
        countHealthNotifs_append, acSwitch_no_health, levelPhase_no_health]
      simpa using healthPhase_le env _

theorem check_health_unwarned (cfg : ProfileSettings) (env : PollEnv)
    (s : NotifState) (p? : Option Int) (st : String)
    (hw : (check_low_battery cfg env s p? st).1.battery_health_warned = false) :
    countHealthNotifs (check_low_battery cfg env s p? st).2 = 0 := by
  cases p? with
  | none => rfl
  | some p =>
    by_cases hac2 : isOnAc st = true
    · simp [check_low_battery, hac2, acSwitch_no_health]
    · have hac3 : isOnAc st = false := by revert hac2; simp
      simp only [check_low_battery, hac3, Bool.false_eq_true, if_false] at hw ⊢
      simp only [countHealthNotifs_append, acSwitch_no_health, levelPhase_no_health]
      rw [healthPhase_unwarned_after env _ hw]
      rfl

theorem health_run_bound (tr : List PollInput) : ∀ s : NotifState,
    countHealthNotifs (notifRun s tr).2
      ≤ (if s.battery_health_warned = true then 0 else 1) := by
  induction tr with
  | nil =>
    intro s
    show countHealthNotifs [] ≤ _
    simp only [countHealthNotifs, List.filter_nil, List.length_nil]
    exact Nat.zero_le _
  | cons i rest ih =>
    intro s
    simp only [notifRun, countHealthNotifs_append]
    by_cases hw : s.battery_health_warned = true
    · have h1 := check_health_warned i.cfg i.env s i.percentage i.status hw
      have h2 := ih (check_low_battery i.cfg i.env s i.percentage i.status).1
      rw [if_pos h1.2] at h2
      rw [h1.1, if_pos hw]
      omega
    · rw [if_neg hw]
      by_cases hw2 : (check_low_battery i.cfg i.env s i.percentage i.status).1.battery_health_warned = true
      · have h1 := check_health_le i.cfg i.env s i.percentage i.status
        have h2 := ih (check_low_battery i.cfg i.env s i.percentage i.status).1
        rw [if_pos hw2] at h2
        omega
      · have h1 := check_health_unwarned i.cfg i.env s i.percentage i.status
          (by revert hw2; simp)
        have h2 := ih (check_low_battery i.cfg i.env s i.percentage i.status).1
        rw [if_neg hw2] at h2
        omega

/-- Counterexample to C5 as stated: along a continuous discharge in
which every poll is "Discharging" at a percentage at or below
LOW_BATTERY_THRESHOLD, three low/critical notifications are sent, not
at most one: oscillating between the low band (10%) and the critical
band (3%) re-arms each level because `last_notification_level` only
remembers the most recent band. -/
theorem C5_counterexample :
    (notifRun initNotifState
        [⟨⟨false, false, true⟩, ⟨false, none, none⟩, some 10, "Discharging"⟩,
         ⟨⟨false, false, true⟩, ⟨false, none, none⟩, some 3, "Discharging"⟩,
         ⟨⟨false, false, true⟩, ⟨false, none, none⟩, some 10, "Discharging"⟩]).2
      = [Notif.lowPlain 10, Notif.criticalLevel 3, Notif.lowPlain 10]
    ∧ countLevelNotifs
        [Notif.lowPlain 10, Notif.criticalLevel 3, Notif.lowPlain 10] = 3
    ∧ (∀ i ∈ ([⟨⟨false, false, true⟩, ⟨false, none, none⟩, some 10, "Discharging"⟩,
         ⟨⟨false, false, true⟩, ⟨false, none, none⟩, some 3, "Discharging"⟩,
         ⟨⟨false, false, true⟩, ⟨false, none, none⟩, some 10, "Discharging"⟩] :
          List PollInput),
        i.status = "Discharging"
          ∧ ∃ p, i.percentage = some p ∧ 0 < p ∧ p ≤ LOW_BATTERY_THRESHOLD) := by
  refine ⟨by decide, by decide, ?_⟩
  intro i hi
  simp only [List.mem_cons, List.mem_singleton] at hi
  rcases hi with rfl | rfl | rfl | h
  · exact ⟨rfl, 10, rfl, by decide, by decide⟩
  · exact ⟨rfl, 3, rfl, by decide, by decide⟩
  · exact ⟨rfl, 10, rfl, by decide, by decide⟩
  · cases h

/-- C5 (amended): a level notification fires only when the remembered
`last_notification_level` differs from the band entered, so along any
run of polls that all report "Discharging" with a percentage strictly
between the critical and low thresholds, at most one low/critical
notification is sent; the remembered level is cleared by any poll whose
status is one of the on-AC statuses (charging, full, not charging) and
by any discharging poll whose percentage is above the low threshold.
Statuses outside those three (such as "Unknown") are treated like
discharging, so the reset the original claim asserts for every
non-discharging status does not happen for them. -/
theorem C5_level_notification_discipline (s : NotifState) (tr : List PollInput)
    (hband : ∀ i ∈ tr, i.status = "Discharging"
      ∧ ∃ p, i.percentage = some p ∧ CRITICAL_BATTERY_THRESHOLD < p
          ∧ p ≤ LOW_BATTERY_THRESHOLD) :
    countLevelNotifs (notifRun s tr).2 ≤ 1
    ∧ (∀ (cfg : ProfileSettings) (env : PollEnv) (p : Int) (st : String),
        isOnAc st = true →
        (check_low_battery cfg env s (some p) st).1.last_notification_level
          = none)
    ∧ (∀ (cfg : ProfileSettings) (env : PollEnv) (p : Int) (st : String),
        isOnAc st = false → LOW_BATTERY_THRESHOLD < p →
        (check_low_battery cfg env s (some p) st).1.last_notification_level
          = none) := by
  refine ⟨?_, ?_, ?_⟩
  · cases tr with
    | nil => exact Nat.zero_le 1
    | cons i rest =>
      obtain ⟨hst, p, hp, hp1, hp2⟩ := hband i (by simp)
      have hstep := discharging_band_step i.cfg i.env s p hp1 hp2
      simp only [notifRun, countLevelNotifs_append]
      rw [hp, hst]
      have hzero := band_run_no_more rest
        (check_low_battery i.cfg i.env s (some p) "Discharging").1
        (fun j hj => hband j (by simp [hj])) hstep.1
      rw [hstep.2, hzero]
      split_ifs <;> omega
  · intro cfg env p st hac2
    simp [check_low_battery, hac2]
  · intro cfg env p st hac2 hp
    simp only [check_low_battery, hac2, Bool.false_eq_true, if_false]
    rw [healthPhase_keeps_level]
    exact levelPhase_above cfg env _ p (not_le.mpr hp)

/-- Witness for C5 (amended): a single discharging poll at 10% from a
fresh state sends exactly one notification, and the reset facts hold at
a charging poll and at a discharging poll at 50%. -/
theorem C5_level_notification_discipline_witness :
    countLevelNotifs (notifRun initNotifState
        [⟨⟨false, false, true⟩, ⟨false, none, none⟩, some 10, "Discharging"⟩]).2 ≤ 1
    ∧ (check_low_battery ⟨false, false, true⟩ ⟨false, none, none⟩
        initNotifState (some 50) "Charging").1.last_notification_level = none
    ∧ (check_low_battery ⟨false, false, true⟩ ⟨false, none, none⟩
        initNotifState (some 50) "Discharging").1.last_notification_level = none := by
  have h := C5_level_notification_discipline initNotifState
    [⟨⟨false, false, true⟩, ⟨false, none, none⟩, some 10, "Discharging"⟩]
    (by
      intro i hi
      simp only [List.mem_singleton] at hi
      subst hi
      exact ⟨rfl, 10, rfl, by decide, by decide⟩)
  exact ⟨h.1,
    h.2.1 ⟨false, false, true⟩ ⟨false, none, none⟩ 50 "Charging" (by decide),
    h.2.2 ⟨false, false, true⟩ ⟨false, none, none⟩ 50 "Discharging" (by decide)
      (by decide)⟩

/-- C10: along any sequence of polls from the freshly initialised
state, the battery-health warning is sent at most once in the whole
process lifetime: it is sent only when `battery_health_warned` is still
false and the computed health is strictly below 40, the send sets the
flag, and no code path resets it. -/
theorem C10_health_warning_once (tr : List PollInput) :
    countHealthNotifs (notifRun initNotifState tr).2 ≤ 1 := by
  have h := health_run_bound tr initNotifState
  simpa [initNotifState] using h

theorem digit_not_ws (c : Char) (h : c.isDigit = true) :
    c.isWhitespace = false := by
  by_contra hws
  rw [Bool.not_eq_false] at hws
  have hcs : c = ' ' ∨ c = '\t' ∨ c = '\x0d' ∨ c = '\n' := by
    simpa [Char.isWhitespace, or_assoc] using hws
  rcases hcs with rfl | rfl | rfl | rfl <;> revert h <;> decide

theorem digit_ne_plus (c : Char) (h : c.isDigit = true) : ¬ c = '+' := by
  rintro rfl
  revert h
  decide

theorem digit_ne_minus (c : Char) (h : c.isDigit = true) : ¬ c = '-' := by
  rintro rfl
  revert h
  decide

theorem dropWhile_ws_digits (l : List Char) (hl : l.all Char.isDigit = true) :
    l.dropWhile Char.isWhitespace = l := by
  cases l with
  | nil => rfl
  | cons c t =>
    simp only [List.all_cons, Bool.and_eq_true] at hl
    rw [List.dropWhile_cons, if_neg]
    simp [digit_not_ws c hl.1]

theorem pyStripChars_digits (l : List Char) (hl : l.all Char.isDigit = true) :
    pyStripChars l = l := by
  have hrev : l.reverse.all Char.isDigit = true := by
    simp only [List.all_eq_true] at hl ⊢
    intro x hx
    exact hl x (List.mem_reverse.mp hx)
  unfold pyStripChars
  rw [dropWhile_ws_digits l hl, dropWhile_ws_digits l.reverse hrev,
    List.reverse_reverse]

theorem digitChar_isDigit (d : Nat) (hd : d < 10) :
    (Nat.digitChar d).isDigit = true := by
  interval_cases d <;> decide

theorem digitChar_toNat (d : Nat) (hd : d < 10) :
    (Nat.digitChar d).toNat - 48 = d := by
  interval_cases d <;> decide

theorem natDigitChars_all_digits (n : Nat) :
    (natDigitChars n).all Char.isDigit = true := by
  induction n using Nat.strong_induction_on with
  | _ n ih =>
    unfold natDigitChars
    split_ifs with h
    · simp [digitChar_isDigit n h]
    · rw [List.all_append]
      have h1 := ih (n / 10) (Nat.div_lt_self (by omega) (by norm_num))
      have h2 := digitChar_isDigit (n % 10) (Nat.mod_lt _ (by norm_num))
      simp [h1, h2]

theorem natDigitChars_ne_nil (n : Nat) : natDigitChars n ≠ [] := by
  unfold natDigitChars
  split_ifs <;> simp

theorem natDigitChars_foldl (n : Nat) : ∀ a : Nat,
    (natDigitChars n).foldl (fun acc c => 10 * acc + (c.toNat - 48)) a
      = a * 10 ^ (natDigitChars n).length + n := by
  induction n using Nat.strong_induction_on with
  | _ n ih =>
    intro a
    unfold natDigitChars
    split_ifs with h
    · simp only [List.foldl_cons, List.foldl_nil, List.length_singleton]
      rw [digitChar_toNat n h]
      ring
    · rw [List.foldl_append, List.length_append]
      have h1 := ih (n / 10) (Nat.div_lt_self (by omega) (by norm_num))
      rw [h1 a]
      simp only [List.foldl_cons, List.foldl_nil, List.length_singleton]
      rw [digitChar_toNat (n % 10) (Nat.mod_lt _ (by norm_num))]
      have := Nat.div_add_mod n 10
      ring_nf
      omega

theorem digitsVal_natDigitChars (n : Nat) :
    digitsVal (natDigitChars n) = some n := by
  unfold digitsVal
  rw [if_neg (by simp [natDigitChars_ne_nil n]), if_pos (natDigitChars_all_digits n)]
  rw [natDigitChars_foldl n 0]
  simp

theorem pyInt_natDigitChars (n : Nat) :
    pyInt ⟨natDigitChars n⟩ = some (n : Int) := by
  have hall := natDigitChars_all_digits n
  have hstrip : pyStripChars (String.data ⟨natDigitChars n⟩) = natDigitChars n :=
    pyStripChars_digits _ hall
  obtain ⟨c, t, hct⟩ : ∃ c t, natDigitChars n = c :: t := by
    cases h : natDigitChars n with
    | nil => exact absurd h (natDigitChars_ne_nil n)
    | cons c t => exact ⟨c, t, rfl⟩
  have hcd : c.isDigit = true := by
    have := hall
    rw [hct, List.all_cons, Bool.and_eq_true] at this
    exact this.1
  unfold pyInt
  rw [hstrip, hct]
  show (if c = '+' then (digitsVal t).map Int.ofNat
    else if c = '-' then (digitsVal t).map fun k => -(k : Int)
    else (digitsVal (c :: t)).map Int.ofNat) = some (n : Int)
  rw [if_neg (digit_ne_plus c hcd), if_neg (digit_ne_minus c hcd), ← hct,
    digitsVal_natDigitChars n]
  rfl

/-- Counterexample to C9 as stated: a capacity file containing "150"
makes `get_battery_percentage` return 150, outside 0-100 — the code
does not clamp. -/
theorem C9_counterexample :
    get_battery_percentage (some "150") = some 150
      ∧ ¬ ((150 : Int) ≤ 100) := by
  exact ⟨rfl, by decide⟩

/-- C9 (amended): `get_battery_percentage` returns either None or
exactly the integer Python `int` parses from the capacity file content,
with no clamping: a capacity file holding the decimal representation of
any natural number n yields n itself, so the result lies within 0-100
only when the value in the file does. -/
theorem C9_percentage_unclamped (n : Nat) :
    get_battery_percentage (some ⟨natDigitChars n⟩) = some (n : Int) :=
  pyInt_natDigitChars n

/-- C8: the error-handling claim fails on `get_time_remaining`: a
upower stdout line mentioning "time to empty" but containing no colon
makes `line.split(':', 1)[1]` raise IndexError, which the except clause
at line 662 (`subprocess.SubprocessError, FileNotFoundError`) does not
catch, so the exception escapes to the caller instead of becoming a
neutral placeholder. The other modelled failure modes do degrade to
the neutral placeholders the spec describes. -/
theorem C8_uncaught_index_error :
    get_time_remaining (some "/sys/class/power_supply/BAT0")
        (SubprocessOutcome.ok "foo\n  time to empty no colon")
        (fun _ => none) "Discharging" initSmooth
      = Except.error PyError.indexError
    ∧ get_time_remaining (some "/sys/class/power_supply/BAT0")
        SubprocessOutcome.error (fun _ => none) "Discharging" initSmooth
      = Except.ok (initSmooth, "Unknown", "status")
    ∧ get_time_remaining none (SubprocessOutcome.ok "anything")
        (fun _ => none) "Discharging" initSmooth
      = Except.ok (initSmooth, "Unknown", "status")
    ∧ read_battery_file (some "/sys/class/power_supply/BAT0")
        FileReadOutcome.ioError = none
    ∧ read_battery_file none (FileReadOutcome.ok "57") = none
    ∧ get_power_profile true SubprocessOutcome.error = none
    ∧ get_power_profile false (SubprocessOutcome.ok "balanced") = none := by
  refine ⟨rfl, rfl, rfl, rfl, rfl, rfl, rfl⟩

end BatteryTray
